import Mathlib

/-!
Verification of the MBU_Journalisering journalization workflow engine.

This file gives a shallow embedding of the core data model and operations of
the repository (src/robot_framework/process.py,
src/robot_framework/case_manager/journalize_process.py,
src/robot_framework/case_manager/helper_functions.py) and proves properties
of the embedding.  Each definition mirrors one Python function; line numbers
in doc comments refer to the source files.
-/

namespace Journalisering

/-- A JSON value, mirroring the nested dict/list/scalar trees produced by
`json.loads` of a form payload or of a metadata column. -/
inductive Json where
  | null : Json
  | bool (b : Bool) : Json
  | num (n : Int) : Json
  | str (s : String) : Json
  | arr (xs : List Json) : Json
  | obj (kvs : List (String × Json)) : Json

mutual

/-- Boolean equality on JSON values, mirroring Python `==` on parsed JSON
(used for dictionary keys). -/
def Json.beq : Json → Json → Bool
  | .null, .null => true
  | .bool a, .bool b => a == b
  | .num a, .num b => a == b
  | .str a, .str b => a == b
  | .arr a, .arr b => Json.beqList a b
  | .obj a, .obj b => Json.beqObj a b
  | _, _ => false
termination_by structural j => j

/-- Elementwise `Json.beq` on lists. -/
def Json.beqList : List Json → List Json → Bool
  | [], [] => true
  | a :: as, b :: bs => Json.beq a b && Json.beqList as bs
  | _, _ => false
termination_by structural l => l

/-- Entrywise `Json.beq` on object entry lists. -/
def Json.beqObj : List (String × Json) → List (String × Json) → Bool
  | [], [] => true
  | (ka, va) :: as, (kb, vb) :: bs =>
      ka == kb && Json.beq va vb && Json.beqObj as bs
  | _, _ => false
termination_by structural l => l

end

/-- Insert or overwrite one key in an association list, using an explicit
equality test, mirroring Python `dict` assignment semantics: an existing key
keeps its position and gets the new value, a new key is appended at the
end. -/
def dictInsertBy {κ β : Type} (eq : κ → κ → Bool) :
    List (κ × β) → κ → β → List (κ × β)
  | [], k, v => [(k, v)]
  | (k0, v0) :: rest, k, v =>
      if eq k0 k then (k0, v) :: rest else (k0, v0) :: dictInsertBy eq rest k v

/-- `dictInsertBy` specialised to decidable equality on keys. -/
def dictInsert {κ : Type} [DecidableEq κ] {β : Type}
    (m : List (κ × β)) (k : κ) (v : β) : List (κ × β) :=
  dictInsertBy (fun a b => decide (a = b)) m k v

/-- Fold a batch of pairs into a dict, mirroring Python `dict.update`. -/
def dictUpdate {κ : Type} [DecidableEq κ] {β : Type}
    (m : List (κ × β)) (new : List (κ × β)) : List (κ × β) :=
  new.foldl (fun acc p => dictInsert acc p.1 p.2) m

/-- Python whitespace test used by `str.strip()`. -/
def isPySpace (c : Char) : Bool :=
  c = ' ' || c = '\t' || c = '\n' || c = '\r' || c = '\x0b' || c = '\x0c'

/-- Python `str.strip()` (whitespace trim on both ends). -/
def pyStrip (s : String) : String :=
  ⟨(((s.data.dropWhile isPySpace).reverse).dropWhile isPySpace).reverse⟩

/-- Split a character list on the two-character separator `c1 c2`
(non-overlapping, left to right), mirroring Python `str.split(sep)` for a
two-character separator. -/
def splitSep2 (c1 c2 : Char) : List Char → List (List Char)
  | [] => [[]]
  | [c] => [[c]]
  | a :: b :: rest =>
      if a = c1 ∧ b = c2 then [] :: splitSep2 c1 c2 rest
      else
        match splitSep2 c1 c2 (b :: rest) with
        | [] => [[a]]
        | piece :: pieces => (a :: piece) :: pieces

/-- Python `value.split(";#")`: every use of the key-value extraction in the
repository uses the default separator `";#"`, so the separator is fixed to
those two characters here. -/
def pySplitCats (value : String) : List String :=
  (splitSep2 ';' '#' value.data).map fun cs => ⟨cs⟩

/-- The inner `extract_pairs` of `extract_key_value_pairs_from_json`
(helper_functions.py lines 163-180) at the token level: pair adjacent
tokens, the SECOND token of each pair becoming the key and the FIRST
becoming the value; a trailing unpaired token is dropped. -/
def extract_pairs_tokens : List String → List (String × String)
  | a :: b :: rest => (pyStrip b, pyStrip a) :: extract_pairs_tokens rest
  | _ => []

/-- `extract_pairs(value)`: split on the separator, then pair adjacent
tokens (dict-comprehension semantics: later pairs overwrite). -/
def extract_pairs (value : String) : List (String × String) :=
  dictUpdate [] (extract_pairs_tokens (pySplitCats value))

/-- Python `separator in value` for the fixed separator `";#"`: splitting
yields more than one piece. -/
def hasSepIn (value : String) : Bool :=
  (pySplitCats value).length != 1

mutual

/-- The recursive `find_and_extract_from_node` of
`extract_key_value_pairs_from_json` (helper_functions.py lines 182-200) with
`target_type = str`: walk the JSON tree; at a dict entry whose key equals
`node` and whose value is a string containing the separator, update the
accumulated dict with the extracted pairs (and do not recurse into the
value); otherwise recurse into dict/list values. -/
def extractGoJson (node : String) (acc : List (String × String)) :
    Json → List (String × String)
  | .obj kvs => extractGoObj node acc kvs
  | .arr xs => extractGoArr node acc xs
  | _ => acc
termination_by structural j => j

/-- Traversal of the entries of a JSON object for `extractGoJson`. -/
def extractGoObj (node : String) (acc : List (String × String)) :
    List (String × Json) → List (String × String)
  | [] => acc
  | (k, v) :: rest =>
      extractGoObj node
        (match v with
          | .str s =>
              if k = node ∧ hasSepIn s then dictUpdate acc (extract_pairs s)
              else acc
          | .obj kvs => extractGoObj node acc kvs
          | .arr xs => extractGoArr node acc xs
          | _ => acc)
        rest
termination_by structural l => l

/-- Traversal of the elements of a JSON array for `extractGoJson`. -/
def extractGoArr (node : String) (acc : List (String × String)) :
    List Json → List (String × String)
  | [] => acc
  | x :: rest => extractGoArr node (extractGoJson node acc x) rest
termination_by structural l => l

end

/-- `extract_key_value_pairs_from_json(json_data, node_name)`
(helper_functions.py lines 136-204) with the default separator `";#"` and
default `target_type = str`: the accumulated result dict after the full
traversal, starting from an empty dict. -/
def extract_key_value_pairs_from_json (json_data : Json) (node_name : String) :
    List (String × String) :=
  extractGoJson node_name [] json_data

/-- First-match lookup of a key in a JSON object entry list (dicts produced
by `json.loads` have unique keys, so first match is the dict lookup). -/
def objLookup : List (String × Json) → String → Option Json
  | [], _ => none
  | (k, v) :: rest, key => if k = key then some v else objLookup rest key

/-- One step of `extract_attachments` (helper_functions.py lines 68-72): if
the value is a dict with both a "name" and a "url" entry, record the
name-to-url pair. -/
def attachStep (pairs : List (Json × Json)) (v : Json) : List (Json × Json) :=
  match v with
  | .obj inner =>
      match objLookup inner "name", objLookup inner "url" with
      | some n, some u => dictInsertBy Json.beq pairs n u
      | _, _ => pairs
  | _ => pairs

/-- `extract_attachments(attachments)`: fold `attachStep` over the values of
the attachments dict. -/
def extract_attachments (pairs : List (Json × Json)) :
    List (String × Json) → List (Json × Json)
  | [] => pairs
  | (_, v) :: rest => extract_attachments (attachStep pairs v) rest

/-- Inner step of `extract_linked` (helper_functions.py lines 74-80): if the
item is a dict with both an "id" and a "url" entry, record the id-to-url
pair. -/
def linkedItemStep (pairs : List (Json × Json)) (item : Json) :
    List (Json × Json) :=
  match item with
  | .obj inner =>
      match objLookup inner "id", objLookup inner "url" with
      | some i, some u => dictInsertBy Json.beq pairs i u
      | _, _ => pairs
  | _ => pairs

/-- Iterate `linkedItemStep` over the values of one linked entry. -/
def linkedInnerFold (pairs : List (Json × Json)) :
    List (String × Json) → List (Json × Json)
  | [] => pairs
  | (_, item) :: rest => linkedInnerFold (linkedItemStep pairs item) rest

/-- `extract_linked(linked)`: for each dict value of the linked dict,
iterate over its values. -/
def extract_linked (pairs : List (Json × Json)) :
    List (String × Json) → List (Json × Json)
  | [] => pairs
  | (_, v) :: rest =>
      extract_linked
        (match v with
          | .obj inner => linkedInnerFold pairs inner
          | _ => pairs)
        rest

mutual

/-- The `recursive_search` of `find_name_url_pairs` (helper_functions.py
lines 82-94): an "attachments" dict entry is handed to
`extract_attachments`, a "linked" dict entry to `extract_linked`, and any
other dict or list value is searched recursively. -/
def fnupJson (pairs : List (Json × Json)) : Json → List (Json × Json)
  | .obj kvs => fnupObj pairs kvs
  | .arr xs => fnupArr pairs xs
  | _ => pairs
termination_by structural j => j

/-- Traversal of the entries of a JSON object for `fnupJson`. -/
def fnupObj (pairs : List (Json × Json)) :
    List (String × Json) → List (Json × Json)
  | [] => pairs
  | (k, v) :: rest =>
      fnupObj
        (match v with
          | .obj kvs =>
              if k = "attachments" then extract_attachments pairs kvs
              else if k = "linked" then extract_linked pairs kvs
              else fnupObj pairs kvs
          | .arr xs => fnupArr pairs xs
          | _ => pairs)
        rest
termination_by structural l => l

/-- Traversal of the elements of a JSON array for `fnupJson`. -/
def fnupArr (pairs : List (Json × Json)) : List Json → List (Json × Json)
  | [] => pairs
  | x :: rest => fnupArr (fnupJson pairs x) rest
termination_by structural l => l

end

/-- `find_name_url_pairs(data)` (helper_functions.py lines 55-98): the
accumulated name-to-url dict after the full recursive search. -/
def find_name_url_pairs (data : Json) : List (Json × Json) :=
  fnupJson [] data

mutual

/-- Every dict entry in the tree whose key is `node` carries the string
value `target`.  Scalar leaves are vacuously fine. -/
def catOkJson (node target : String) : Json → Bool
  | .obj kvs => catOkObj node target kvs
  | .arr xs => catOkArr node target xs
  | _ => true
termination_by structural j => j

/-- `catOkJson` on the entries of a JSON object. -/
def catOkObj (node target : String) : List (String × Json) → Bool
  | [] => true
  | (k, v) :: rest =>
      (if k = node then (match v with | .str s => s == target | _ => false)
       else true)
        && catOkJson node target v && catOkObj node target rest
termination_by structural l => l

/-- `catOkJson` on the elements of a JSON array. -/
def catOkArr (node target : String) : List Json → Bool
  | [] => true
  | x :: rest => catOkJson node target x && catOkArr node target rest
termination_by structural l => l

end

mutual

/-- Some dict entry in the tree has key `node`. -/
def hasCatJson (node : String) : Json → Bool
  | .obj kvs => hasCatObj node kvs
  | .arr xs => hasCatArr node xs
  | _ => false
termination_by structural j => j

/-- `hasCatJson` on the entries of a JSON object. -/
def hasCatObj (node : String) : List (String × Json) → Bool
  | [] => false
  | (k, v) :: rest => k == node || hasCatJson node v || hasCatObj node rest
termination_by structural l => l

/-- `hasCatJson` on the elements of a JSON array. -/
def hasCatArr (node : String) : List Json → Bool
  | [] => false
  | x :: rest => hasCatJson node x || hasCatArr node rest
termination_by structural l => l

end

/-- Re-inserting the same key-value pair is the identity. -/
theorem dictInsert_idem {κ : Type} [DecidableEq κ] {β : Type}
    (m : List (κ × β)) (k : κ) (v : β) :
    dictInsert (dictInsert m k v) k v = dictInsert m k v := by
  induction m with
  | nil => simp [dictInsert, dictInsertBy]
  | cons p rest ih =>
      obtain ⟨k0, v0⟩ := p
      by_cases h : k0 = k
      · simp [dictInsert, dictInsertBy, h]
      · simpa [dictInsert, dictInsertBy, h] using ih

/-- Updating with a singleton batch is a single insert. -/
theorem dictUpdate_singleton {κ : Type} [DecidableEq κ] {β : Type}
    (m : List (κ × β)) (k : κ) (v : β) :
    dictUpdate m [(k, v)] = dictInsert m k v := rfl

mutual

/-- Key lemma for the category-map extraction: if every `node` entry in the
tree carries the fixed string `target`, whose extracted pairs are the single
pair `(K, V)`, then the traversal either inserts exactly that pair (when
some `node` entry exists) or leaves the accumulator unchanged. -/
theorem extractGo_const_json (node target K V : String)
    (hsep : hasSepIn target = true)
    (hpairs : extract_pairs target = [(K, V)]) :
    ∀ (j : Json) (acc : List (String × String)),
      catOkJson node target j = true →
      extractGoJson node acc j =
        if hasCatJson node j then dictInsert acc K V else acc
  | .null, acc => by intro _; simp [extractGoJson, hasCatJson]
  | .bool b, acc => by intro _; simp [extractGoJson, hasCatJson]
  | .num n, acc => by intro _; simp [extractGoJson, hasCatJson]
  | .str s, acc => by intro _; simp [extractGoJson, hasCatJson]
  | .arr xs, acc => by
      intro hok
      simpa [extractGoJson, hasCatJson, catOkJson] using
        extractGo_const_arr node target K V hsep hpairs xs acc
          (by simpa [catOkJson] using hok)
  | .obj kvs, acc => by
      intro hok
      simpa [extractGoJson, hasCatJson, catOkJson] using
        extractGo_const_obj node target K V hsep hpairs kvs acc
          (by simpa [catOkJson] using hok)
termination_by structural j => j

/-- Object-entry version of `extractGo_const_json`. -/
theorem extractGo_const_obj (node target K V : String)
    (hsep : hasSepIn target = true)
    (hpairs : extract_pairs target = [(K, V)]) :
    ∀ (kvs : List (String × Json)) (acc : List (String × String)),
      catOkObj node target kvs = true →
      extractGoObj node acc kvs =
        if hasCatObj node kvs then dictInsert acc K V else acc
  | [], acc => by intro _; simp [extractGoObj, hasCatObj]
  | (k, v) :: rest, acc => by
      intro hok
      simp only [catOkObj, Bool.and_eq_true] at hok
      obtain ⟨⟨h1, h2⟩, h3⟩ := hok
      cases v with
      | null =>
          by_cases hk : k = node
          · subst hk; simp at h1
          · simp only [extractGoObj]
            rw [extractGo_const_obj node target K V hsep hpairs rest acc h3]
            simp [hasCatObj, hasCatJson, hk]
      | bool b =>
          by_cases hk : k = node
          · subst hk; simp at h1
          · simp only [extractGoObj]
            rw [extractGo_const_obj node target K V hsep hpairs rest acc h3]
            simp [hasCatObj, hasCatJson, hk]
      | num n =>
          by_cases hk : k = node
          · subst hk; simp at h1
          · simp only [extractGoObj]
            rw [extractGo_const_obj node target K V hsep hpairs rest acc h3]
            simp [hasCatObj, hasCatJson, hk]
      | str s =>
          simp only [extractGoObj]
          by_cases hk : k = node
          · subst hk
            have hs : s = target := by simpa using h1
            subst hs
            rw [if_pos ⟨rfl, hsep⟩, hpairs, dictUpdate_singleton,
              extractGo_const_obj k s K V hsep hpairs rest _ h3]
            simp [hasCatObj, dictInsert_idem]
          · rw [if_neg (fun hc => hk hc.1),
              extractGo_const_obj node target K V hsep hpairs rest acc h3]
            simp [hasCatObj, hasCatJson, hk]
      | obj kvs2 =>
          by_cases hk : k = node
          · subst hk; simp at h1
          · simp only [extractGoObj]
            have h2o : catOkObj node target kvs2 = true := by
              simpa [catOkJson] using h2
            rw [extractGo_const_obj node target K V hsep hpairs kvs2 acc h2o]
            cases hcv : hasCatObj node kvs2 with
            | true =>
                rw [if_pos rfl,
                  extractGo_const_obj node target K V hsep hpairs rest _ h3]
                simp [hasCatObj, hasCatJson, hcv, dictInsert_idem]
            | false =>
                rw [if_neg (by simp),
                  extractGo_const_obj node target K V hsep hpairs rest _ h3]
                simp [hasCatObj, hasCatJson, hcv, hk]
      | arr xs =>
          by_cases hk : k = node
          · subst hk; simp at h1
          · simp only [extractGoObj]
            have h2a : catOkArr node target xs = true := by
              simpa [catOkJson] using h2
            rw [extractGo_const_arr node target K V hsep hpairs xs acc h2a]
            cases hcv : hasCatArr node xs with
            | true =>
                rw [if_pos rfl,
                  extractGo_const_obj node target K V hsep hpairs rest _ h3]
                simp [hasCatObj, hasCatJson, hcv, dictInsert_idem]
            | false =>
                rw [if_neg (by simp),
                  extractGo_const_obj node target K V hsep hpairs rest _ h3]
                simp [hasCatObj, hasCatJson, hcv, hk]
termination_by structural l => l

/-- Array-element version of `extractGo_const_json`. -/
theorem extractGo_const_arr (node target K V : String)
    (hsep : hasSepIn target = true)
    (hpairs : extract_pairs target = [(K, V)]) :
    ∀ (xs : List Json) (acc : List (String × String)),
      catOkArr node target xs = true →
      extractGoArr node acc xs =
        if hasCatArr node xs then dictInsert acc K V else acc
  | [], acc => by intro _; simp [extractGoArr, hasCatArr]
  | x :: rest, acc => by
      intro hok
      simp only [catOkArr, Bool.and_eq_true] at hok
      obtain ⟨h1, h2⟩ := hok
      rw [extractGoArr,
        extractGo_const_json node target K V hsep hpairs x acc h1]
      cases hcx : hasCatJson node x with
      | true =>
          rw [if_pos rfl,
            extractGo_const_arr node target K V hsep hpairs rest _ h2]
          simp [hasCatArr, hcx, dictInsert_idem]
      | false =>
          rw [if_neg (by simp),
            extractGo_const_arr node target K V hsep hpairs rest _ h2]
          simp [hasCatArr, hcx]
termination_by structural l => l

end

/-- C8: for any nested JSON input all of whose "documentCategory" entries
carry the string "Indgående;#Ansøgning" and which contains at least one such
entry (at any depth), `extract_key_value_pairs_from_json` returns the
mapping {"Ansøgning": "Indgående"}: for each adjacent token pair split on
the ";#" separator the second token becomes the key and the first token
becomes the value. -/
theorem c8_category_extraction (j : Json)
    (hall : catOkJson "documentCategory" "Indgående;#Ansøgning" j = true)
    (hsome : hasCatJson "documentCategory" j = true) :
    extract_key_value_pairs_from_json j "documentCategory" =
      [("Ansøgning", "Indgående")] := by
  have hsep : hasSepIn "Indgående;#Ansøgning" = true := by decide
  have hpairs : extract_pairs "Indgående;#Ansøgning" =
      [("Ansøgning", "Indgående")] := by decide
  unfold extract_key_value_pairs_from_json
  rw [extractGo_const_json "documentCategory" "Indgående;#Ansøgning"
    "Ansøgning" "Indgående" hsep hpairs j [] hall, if_pos hsome]
  rfl

/-- Witness for C8 at a concrete payload with the category string nested two
levels deep. -/
theorem c8_category_extraction_witness :
    extract_key_value_pairs_from_json
      (.obj [("caseData", .null),
             ("documentData",
                .obj [("documentCategory", .str "Indgående;#Ansøgning"),
                      ("journalizeDocuments", .str "True")])])
      "documentCategory" = [("Ansøgning", "Indgående")] :=
  c8_category_extraction _ (by decide) (by decide)

/-- Errors raised by the embedded Python fragments. -/
inductive PyErr where
  | keyError (k : String)
  | typeError
  | indexError
  | unboundLocal (v : String)
deriving DecidableEq

/-- Python `j[k]` for a string key: dict lookup with `KeyError` on a missing
key, `TypeError` on a non-dict value. -/
def pyIndexStr (j : Json) (k : String) : Except PyErr Json :=
  match j with
  | .obj kvs =>
      match objLookup kvs k with
      | some v => .ok v
      | none => .error (.keyError k)
  | _ => .error .typeError

/-- Python `j[0]`: first element of a list, `IndexError` on an empty list,
`TypeError` (or `KeyError` for the string-keyed dicts produced by
`json.loads`) otherwise. -/
def pyIndexZero (j : Json) : Except PyErr Json :=
  match j with
  | .arr (x :: _) => .ok x
  | .arr [] => .error .indexError
  | .obj _ => .error (.keyError "0")
  | _ => .error .typeError

/-- The boundary-violation ("Respekt for grænser") form-type family, as
listed in process.py line 46, journalize_process.py lines 315 and 377, and
helper_functions.py line 278. -/
def rfgFamily : List String :=
  ["indmeld_kraenkelser_af_boern", "respekt_for_graenser_privat",
   "respekt_for_graenser"]

/-- Metadata fields read by `determine_case_profile`. -/
structure CaseDataProfile where
  caseProfileId : String
  caseProfileName : String
deriving DecidableEq

/-- `determine_case_profile` (journalize_process.py lines 368-390): return
the metadata profile id and name verbatim when both are nonempty; otherwise
dispatch on the webform id, where only the boundary-violation family
assigns `case_profile_name` (from the form's "omraade" field), after which
the id is resolved through the `GO_CaseProfiles_View` lookup (abstracted as
`dbProfileLookup`; `determine_case_profile_id`, lines 341-365, returns the
first matching id or None, also on any database exception).  For any other
webform id the dispatch assigns nothing and the `determine_case_profile_id`
call references the unbound local `case_profile_name`. -/
def determine_case_profile (os2form_webform_id : String)
    (case_data : CaseDataProfile) (parsed_form_data : Json)
    (dbProfileLookup : String → Option String) :
    Except PyErr (Option String × String) :=
  if case_data.caseProfileId ≠ "" ∧ case_data.caseProfileName ≠ "" then
    .ok (some case_data.caseProfileId, case_data.caseProfileName)
  else if os2form_webform_id ∈ rfgFamily then
    match pyIndexStr parsed_form_data "data" with
    | .error e => .error e
    | .ok dataNode =>
        match pyIndexStr dataNode "omraade" with
        | .error e => .error e
        | .ok om =>
            let case_profile_name :=
              if Json.beq om (.str "Skole") then
                "MBU PPR Respekt for grænser Skole"
              else if Json.beq om (.str "Dagtilbud") then
                "MBU PPR Respekt for grænser Dagtilbud"
              else if Json.beq om (.str "Ungdomsskole") ||
                  Json.beq om (.str "Klub") then
                "MBU PPR Respekt for grænser UngiAarhus"
              else "MBU PPR Respekt for grænser Skole"
            .ok (dbProfileLookup case_profile_name, case_profile_name)
  else .error (.unboundLocal "case_profile_name")

/-- C10: `determine_case_profile` returns the caller-supplied profile pair
verbatim whenever both fields are nonempty; for every form type outside the
boundary-violation family with either field empty it raises the
unbound-local error instead of returning a profile. -/
theorem c10_case_profile (wf : String) (cd : CaseDataProfile) (pfd : Json)
    (db : String → Option String) :
    (cd.caseProfileId ≠ "" → cd.caseProfileName ≠ "" →
      determine_case_profile wf cd pfd db =
        .ok (some cd.caseProfileId, cd.caseProfileName))
    ∧ (wf ∉ rfgFamily →
      cd.caseProfileId = "" ∨ cd.caseProfileName = "" →
      determine_case_profile wf cd pfd db =
        .error (.unboundLocal "case_profile_name")) := by
  constructor
  · intro h1 h2
    simp [determine_case_profile, h1, h2]
  · intro h1 h2
    have h3 : ¬(cd.caseProfileId ≠ "" ∧ cd.caseProfileName ≠ "") := by
      tauto
    simp [determine_case_profile, h3, h1]

/-- Witness for C10 at concrete metadata. -/
theorem c10_case_profile_witness :
    determine_case_profile "tilmelding_til_modersmaalsunderv"
        ⟨"P1", "ProfilNavn"⟩ .null (fun _ => none) =
      .ok (some "P1", "ProfilNavn")
    ∧ determine_case_profile "tilmelding_til_modersmaalsunderv"
        ⟨"", ""⟩ .null (fun _ => none) =
      .error (.unboundLocal "case_profile_name") :=
  ⟨(c10_case_profile "tilmelding_til_modersmaalsunderv" ⟨"P1", "ProfilNavn"⟩
      .null (fun _ => none)).1 (by decide) (by decide),
   (c10_case_profile "tilmelding_til_modersmaalsunderv" ⟨"", ""⟩
      .null (fun _ => none)).2 (by decide) (Or.inl rfl)⟩

/-- The care-time/home-schooling form-type family of
helper_functions.py line 289. -/
def careFamily : List String :=
  ["pasningstid", "anmeldelse_af_hjemmeundervisning"]

/-- The `subject_dict` of `notify_stakeholders`
(helper_functions.py lines 290-293). -/
def subjectLookup (form_type : String) : Option String :=
  if form_type = "pasningstid" then
    some "Ændring af pasningstid i forbindelse med barselsorlov"
  else if form_type = "anmeldelse_af_hjemmeundervisning" then
    some "Erklæring af hjemmeundervisning"
  else none

/-- Python `str(x)` on an optional string (`None` prints as "None"),
as interpolated into the email subject. -/
def pyStrOfOpt : Option String → String
  | some s => s
  | none => "None"

/-- The recipient/subject decision of `notify_stakeholders`
(helper_functions.py lines 260-322): three successive `if` statements each
overwrite recipient, subject and body; `bodyHasErrorDetail` records whether
the body chosen carries the error message. -/
structure EmailDecision where
  recipient : String
  subject : String
  bodyHasErrorDetail : Bool
deriving DecidableEq

/-- Python truthiness of the `error_message` argument: `None`/`False` and
the empty string are falsy, a nonempty string is truthy. -/
def truthyMsg : Option String → Bool
  | none => false
  | some s => s ≠ ""

/-- The recipient selection of `notify_stakeholders` (helper_functions.py
lines 256-322), as the final value of (recipient, subject, body) after the
three successive overwriting `if` blocks; `none` means no recipient was
assigned and no email is sent (lines 309-322). -/
def notify_stakeholders_decision (form_type : String)
    (error_message : Option String) : Option EmailDecision :=
  let st1 : Option EmailDecision :=
    if truthyMsg error_message then
      some ⟨"rpa@mbu.aarhus.dk", "Fejl ved journalisering af sag", true⟩
    else none
  let st2 : Option EmailDecision :=
    if form_type ∈ rfgFamily then
      some ⟨"respekt@mbu.aarhus.dk",
            "Ny sag er blevet journaliseret: Respekt For Grænser", false⟩
    else st1
  if form_type ∈ careFamily then
    some ⟨"pladsanvisningen@mbu.aarhus.dk",
          "Ny sag er blevet journaliseret: " ++
            pyStrOfOpt (subjectLookup form_type), false⟩
  else st2

/-- C6 counterexample: with an error message present AND a
boundary-violation form type, the email goes to the specialized mailbox
(with no error detail), not to the operations mailbox — the claimed
priority dispatch (error wins regardless of form type) does not hold. -/
theorem c6_counterexample :
    notify_stakeholders_decision "respekt_for_graenser" (some "boom") =
      some ⟨"respekt@mbu.aarhus.dk",
            "Ny sag er blevet journaliseret: Respekt For Grænser", false⟩
    ∧ "respekt@mbu.aarhus.dk" ≠ "rpa@mbu.aarhus.dk" := by decide

/-- C6 amended: recipient selection is a sequence of overwriting `if`
blocks, last match wins: a care-time/home-schooling form type always wins
(subject from the form-type lookup); otherwise a boundary-violation form
type wins; otherwise a truthy error message selects the operations mailbox
with the error detail; otherwise no email is sent. -/
theorem c6_amended_dispatch (ft : String) (err : Option String) :
    (ft ∈ careFamily →
      notify_stakeholders_decision ft err =
        some ⟨"pladsanvisningen@mbu.aarhus.dk",
              "Ny sag er blevet journaliseret: " ++
                pyStrOfOpt (subjectLookup ft), false⟩)
    ∧ (ft ∉ careFamily → ft ∈ rfgFamily →
      notify_stakeholders_decision ft err =
        some ⟨"respekt@mbu.aarhus.dk",
              "Ny sag er blevet journaliseret: Respekt For Grænser", false⟩)
    ∧ (ft ∉ careFamily → ft ∉ rfgFamily → truthyMsg err = true →
      notify_stakeholders_decision ft err =
        some ⟨"rpa@mbu.aarhus.dk", "Fejl ved journalisering af sag", true⟩)
    ∧ (ft ∉ careFamily → ft ∉ rfgFamily → truthyMsg err = false →
      notify_stakeholders_decision ft err = none) := by
  refine ⟨?_, ?_, ?_, ?_⟩
  · intro h1
    simp [notify_stakeholders_decision, h1]
  · intro h1 h2
    simp [notify_stakeholders_decision, h1, h2]
  · intro h1 h2 h3
    simp [notify_stakeholders_decision, h1, h2, h3]
  · intro h1 h2 h3
    simp [notify_stakeholders_decision, h1, h2, h3]

/-- Witness for C6 at one concrete form type per branch. -/
theorem c6_amended_dispatch_witness :
    notify_stakeholders_decision "pasningstid" none =
      some ⟨"pladsanvisningen@mbu.aarhus.dk",
            "Ny sag er blevet journaliseret: " ++
              pyStrOfOpt (subjectLookup "pasningstid"), false⟩
    ∧ notify_stakeholders_decision "respekt_for_graenser" (some "x") =
      some ⟨"respekt@mbu.aarhus.dk",
            "Ny sag er blevet journaliseret: Respekt For Grænser", false⟩
    ∧ notify_stakeholders_decision "tilmelding_til_modersmaalsunderv"
        (some "boom") =
      some ⟨"rpa@mbu.aarhus.dk", "Fejl ved journalisering af sag", true⟩
    ∧ notify_stakeholders_decision "tilmelding_til_modersmaalsunderv" none =
      none :=
  ⟨(c6_amended_dispatch "pasningstid" none).1 (by decide),
   (c6_amended_dispatch "respekt_for_graenser" (some "x")).2.1 (by decide)
     (by decide),
   (c6_amended_dispatch "tilmelding_til_modersmaalsunderv" (some "boom")).2.2.1
     (by decide) (by decide) (by decide),
   (c6_amended_dispatch "tilmelding_til_modersmaalsunderv" none).2.2.2
     (by decide) (by decide) (by decide)⟩

/-- Whether an email send is attempted and fails inside the body of
`notify_stakeholders`: the whole body (helper_functions.py lines 258-322) is
inside try/except Exception, so any such failure is caught and logged
(lines 324-326) and the function returns normally; the result records which
email decision (if any) was delivered. -/
def notify_stakeholders_run (form_type : String) (error_message : Option String)
    (sendFails : Bool) : Except PyErr (Option EmailDecision) :=
  match notify_stakeholders_decision form_type error_message with
  | none => .ok none
  | some decision => if sendFails then .ok none else .ok (some decision)

/-- Positional-or-keyword parameter binding of a Python call for a function
with no default values: `TypeError` when more positional arguments than
parameters are given, when an unknown keyword is passed, when a keyword
rebinds an already positionally bound parameter, or when a parameter is
left unbound. -/
def bindCall (params : List String) (nPos : Nat) (kwNames : List String) :
    Except Unit Unit :=
  if params.length < nPos then .error ()
  else if kwNames.any (fun kw => !(params.contains kw)) then .error ()
  else if kwNames.any (fun kw => (params.take nPos).contains kw) then .error ()
  else if (params.drop nPos).any (fun p => !(kwNames.contains p)) then .error ()
  else .ok ()

/-- The parameter list of `notify_stakeholders`
(helper_functions.py line 256). -/
def notifyStakeholdersParams : List String :=
  ["form_type", "case_id", "case_title", "orchestrator_connection",
   "error_message", "attachment_bytes"]

/-- C7: the body of `notify_stakeholders` never lets a send failure escape
(first conjunct), but every invocation of it from the pipeline raises
`TypeError` at the call boundary before the body runs: process.py lines
81-89 and line 174 and journalize_process.py lines 564-571 pass 7
positional arguments to the 6-parameter function (second conjunct), and
process.py lines 196-203 pass the unknown keywords `case_metadata` and
`case_rel_url` (third conjunct), so the pipeline invocations themselves
propagate an exception to the caller. -/
theorem c7_notify_binding :
    (∀ (ft : String) (err : Option String) (sendFails : Bool),
      ∃ r, notify_stakeholders_run ft err sendFails = .ok r)
    ∧ bindCall notifyStakeholdersParams 7 [] = .error ()
    ∧ bindCall notifyStakeholdersParams 0
        ["case_metadata", "case_id", "case_title", "case_rel_url",
         "orchestrator_connection", "error_message", "attachment_bytes"] =
      .error () := by
  refine ⟨?_, by rfl, by rfl⟩
  intro ft err sendFails
  unfold notify_stakeholders_run
  cases notify_stakeholders_decision ft err with
  | none => exact ⟨none, rfl⟩
  | some d =>
      cases sendFails with
      | true => exact ⟨none, rfl⟩
      | false => exact ⟨some d, rfl⟩

/-- One upload attempt's HTTP response: the `ok` flag and the `DocId` of
the JSON body. -/
structure UploadResponse where
  ok : Bool
  docId : Nat
deriving DecidableEq

/-- The retry loop of `upload_single_document` (journalize_process.py lines
491-512): with `attempts` attempts already made (initially 0), issue the
next attempt; leave the loop when the response is ok or when 5 attempts
have been made.  Returns the final attempt count together with the last
response. -/
def uploadGo (resp : Nat → UploadResponse) (attempts : Nat) :
    Nat × UploadResponse :=
  if (resp attempts).ok then (attempts + 1, resp attempts)
  else if h : attempts + 1 < 5 then uploadGo resp (attempts + 1)
  else (attempts + 1, resp attempts)
termination_by 5 - attempts
decreasing_by omega

/-- `upload_single_document` retry outcome (journalize_process.py lines
486-527): run the retry loop from zero attempts; if the final response is
ok the result is its `DocId` (line 525), else `RequestError` is raised
(lines 518-523).  Returns the attempt count together with the outcome. -/
def upload_single_document (resp : Nat → UploadResponse) :
    Nat × Except Unit Nat :=
  ((uploadGo resp 0).1,
   if (uploadGo resp 0).2.ok then .ok (uploadGo resp 0).2.docId
   else .error ())

/-- Advance the retry loop one failed attempt. -/
theorem uploadGo_step (resp : Nat → UploadResponse) (a : Nat)
    (ha : a < 4) (hfail : (resp a).ok = false) :
    uploadGo resp a = uploadGo resp (a + 1) := by
  rw [uploadGo]
  rw [if_neg (by simp [hfail]), dif_pos (by omega)]

/-- C3: if the backend fails on attempts 0-3 and succeeds on attempt 4,
exactly 5 attempts are made and the 5th response supplies the document id;
if the backend fails on every attempt, exactly 5 attempts are made and the
outcome is the `RequestError`. -/
theorem c3_upload_retry (resp : Nat → UploadResponse) :
    ((∀ i, i < 4 → (resp i).ok = false) → (resp 4).ok = true →
      upload_single_document resp = (5, .ok (resp 4).docId))
    ∧ ((∀ i, (resp i).ok = false) →
      upload_single_document resp = (5, .error ())) := by
  constructor
  · intro hfail hok
    have h4 : uploadGo resp 4 = (5, resp 4) := by
      rw [uploadGo, if_pos hok]
    have h0 : uploadGo resp 0 = (5, resp 4) := by
      rw [uploadGo_step resp 0 (by omega) (hfail 0 (by omega)),
        uploadGo_step resp 1 (by omega) (hfail 1 (by omega)),
        uploadGo_step resp 2 (by omega) (hfail 2 (by omega)),
        uploadGo_step resp 3 (by omega) (hfail 3 (by omega)), h4]
    simp [upload_single_document, h0, hok]
  · intro hfail
    have h4 : uploadGo resp 4 = (5, resp 4) := by
      rw [uploadGo]
      rw [if_neg (by simp [hfail 4]), dif_neg (by omega)]
    have h0 : uploadGo resp 0 = (5, resp 4) := by
      rw [uploadGo_step resp 0 (by omega) (hfail 0),
        uploadGo_step resp 1 (by omega) (hfail 1),
        uploadGo_step resp 2 (by omega) (hfail 2),
        uploadGo_step resp 3 (by omega) (hfail 3), h4]
    simp [upload_single_document, h0, hfail 4]

/-- Witness for C3: a backend failing on attempts 0-3 with DocId 42 on
attempt 4, and a backend that always fails. -/
theorem c3_upload_retry_witness :
    upload_single_document
        (fun i => ⟨decide (i = 4), 42⟩) = (5, .ok 42)
    ∧ upload_single_document (fun _ => ⟨false, 0⟩) = (5, .error ()) :=
  ⟨(c3_upload_retry (fun i => ⟨decide (i = 4), 42⟩)).1
      (fun i hi => decide_eq_false_iff_not.mpr (by omega)) (by decide),
   (c3_upload_retry (fun _ => ⟨false, 0⟩)).2 (fun i => rfl)⟩

/-- A row of the `[RPA].[journalizing].[Journalizing]` tracking table as
read by `get_forms_data` (journalize_process.py lines 87-112). -/
structure JRow where
  form_id : String
  status : Option String
deriving DecidableEq

/-- A row of the `[RPA].[journalizing].[Forms]` table as read by
`get_forms_data`. -/
structure FRow where
  form_id : String
  form_type : String
  form_data : String
  form_submitted_date : Nat
deriving DecidableEq

/-- A projected result row of the `get_forms_data` query: `j.form_id`,
`f.form_data`, `f.form_submitted_date`. -/
structure FormDataRow where
  form_id : String
  form_data : String
  form_submitted_date : Nat
deriving DecidableEq

/-- Comparison by submission date (the ORDER BY key of `get_forms_data`). -/
def dateLe (a b : FormDataRow) : Prop :=
  a.form_submitted_date ≤ b.form_submitted_date

instance : DecidableRel dateLe := fun a b =>
  Nat.decLe a.form_submitted_date b.form_submitted_date

instance : IsTotal FormDataRow dateLe :=
  ⟨fun a b => Nat.le_total a.form_submitted_date b.form_submitted_date⟩

instance : IsTrans FormDataRow dateLe :=
  ⟨fun _ _ _ => Nat.le_trans⟩

/-- `get_forms_data(conn_string, form_type)` (journalize_process.py lines
87-112): SELECT j.form_id, f.form_data, f.form_submitted_date FROM
Journalizing j JOIN Forms f ON f.form_id = j.form_id WHERE f.form_type =
form_type AND j.status IS NULL ORDER BY f.form_submitted_date ASC.  The
join is the filtered cross product; the ORDER BY is a (stable) insertion
sort on the submission date. -/
def get_forms_data (js : List JRow) (fs : List FRow) (form_type : String) :
    List FormDataRow :=
  (js.flatMap fun j =>
      (fs.filter fun f =>
          f.form_id == j.form_id && f.form_type == form_type &&
            j.status == none).map
        fun f => ⟨j.form_id, f.form_data, f.form_submitted_date⟩).insertionSort
    dateLe

/-- The selection predicate asserted by the claim: tracked status unset or
non-terminal, i.e. not yet Successful. -/
def claimSelectsC2 (j : JRow) : Bool :=
  match j.status with
  | none => true
  | some s => s != "Successful"

/-- C2 counterexample: a form whose tracked status is "Failed" is unset/
non-terminal in the claim's sense (not Successful, so the claim requires it
to be returned), yet the query's `j.status IS NULL` filter excludes it and
the fetch returns nothing. -/
theorem c2_counterexample :
    claimSelectsC2 ⟨"f1", some "Failed"⟩ = true
    ∧ get_forms_data [⟨"f1", some "Failed"⟩] [⟨"f1", "t", "(data)", 10⟩] "t"
      = [] := by
  constructor
  · rfl
  · rfl

/-- C2 amended: for every form type, the fetch returns exactly the joined
submissions whose tracked status is unset (NULL) — a non-NULL non-terminal
status such as Failed or InProgress is excluded — and the returned sequence
is sorted by submission timestamp ascending. -/
theorem c2_amended_fetch_pending (js : List JRow) (fs : List FRow)
    (ft : String) :
    (∀ r, r ∈ get_forms_data js fs ft ↔
      ∃ j ∈ js, ∃ f ∈ fs, f.form_id = j.form_id ∧ f.form_type = ft ∧
        j.status = none ∧
        r = ⟨j.form_id, f.form_data, f.form_submitted_date⟩)
    ∧ (get_forms_data js fs ft).Pairwise dateLe := by
  constructor
  · intro r
    unfold get_forms_data
    rw [List.mem_insertionSort]
    simp only [List.mem_flatMap, List.mem_map, List.mem_filter,
      Bool.and_eq_true, beq_iff_eq]
    constructor
    · rintro ⟨j, hj, f, ⟨hf, ⟨h1, h2⟩, h3⟩, hr⟩
      exact ⟨j, hj, f, hf, h1, h2, h3, hr.symm⟩
    · rintro ⟨j, hj, f, hf, h1, h2, h3, hr⟩
      exact ⟨j, hj, f, ⟨hf, ⟨h1, h2⟩, h3⟩, hr.symm⟩
  · exact List.sorted_insertionSort dateLe _

/-- Witness for C2 at a concrete two-row store: the amended membership
characterisation admits the NULL-status row. -/
theorem c2_amended_fetch_pending_witness :
    (⟨"f2", "(data2)", 5⟩ : FormDataRow) ∈
      get_forms_data [⟨"f1", some "Successful"⟩, ⟨"f2", none⟩]
        [⟨"f1", "t", "(data1)", 3⟩, ⟨"f2", "t", "(data2)", 5⟩] "t" :=
  ((c2_amended_fetch_pending
      [⟨"f1", some "Successful"⟩, ⟨"f2", none⟩]
      [⟨"f1", "t", "(data1)", 3⟩, ⟨"f2", "t", "(data2)", 5⟩] "t").1
    ⟨"f2", "(data2)", 5⟩).mpr
    ⟨⟨"f2", none⟩, by decide, ⟨"f2", "t", "(data2)", 5⟩, by decide,
      rfl, rfl, rfl, rfl⟩

/-- Helper for `precededBy`: `seen` records whether a `p`-element has
already occurred earlier in the list. -/
def precededByGo {α : Type} (p q : α → Bool) (seen : Bool) : List α → Bool
  | [] => true
  | x :: xs => (!(q x) || seen) && precededByGo p q (seen || p x) xs

/-- Every `q`-element of the list is strictly preceded by an earlier
`p`-element. -/
def precededBy {α : Type} (p q : α → Bool) (l : List α) : Bool :=
  precededByGo p q false l

/-- Helper for `noAfter`: `seen` records whether a `p`-element has already
occurred. -/
def noAfterGo {α : Type} (p q : α → Bool) (seen : Bool) : List α → Bool
  | [] => true
  | x :: xs => !(seen && q x) && noAfterGo p q (seen || p x) xs

/-- No `q`-element of the list occurs strictly after a `p`-element. -/
def noAfter {α : Type} (p q : α → Bool) (l : List α) : Bool :=
  noAfterGo p q false l

/-- Being preceded is monotone in the `seen` flag. -/
theorem precededByGo_mono {α : Type} (p q : α → Bool) :
    ∀ (l : List α) (s : Bool), precededByGo p q s l = true →
      precededByGo p q true l = true := by
  intro l
  induction l with
  | nil => intro s _; rfl
  | cons x xs ih =>
      intro s h
      simp only [precededByGo, Bool.and_eq_true] at h
      simp only [precededByGo, Bool.or_true, Bool.true_or, Bool.and_eq_true]
      refine ⟨by simp, ?_⟩
      cases hs : s || p x with
      | true => rw [hs] at h; exact h.2
      | false => rw [hs] at h; exact ih false h.2

/-- If a `q`-element never occurs, everything is trivially preceded. -/
theorem precededByGo_of_no_q {α : Type} (p q : α → Bool) :
    ∀ (l : List α) (s : Bool), (∀ e ∈ l, q e = false) →
      precededByGo p q s l = true := by
  intro l
  induction l with
  | nil => intro s _; rfl
  | cons x xs ih =>
      intro s h
      simp only [precededByGo, Bool.and_eq_true, Bool.or_eq_true]
      exact ⟨Or.inl (by simp [h x (by simp)]),
        ih (s || p x) fun e he => h e (by simp [he])⟩

/-- `precededByGo` is closed under concatenation, for any `seen` flag. -/
theorem precededByGo_append {α : Type} (p q : α → Bool) (B : List α)
    (hB : precededByGo p q false B = true) :
    ∀ (A : List α) (s : Bool), precededByGo p q s A = true →
      precededByGo p q s (A ++ B) = true := by
  intro A
  induction A with
  | nil =>
      intro s h
      cases s with
      | false => simpa using hB
      | true => simpa using precededByGo_mono p q B false hB
  | cons x xs ih =>
      intro s h
      simp only [precededByGo, List.cons_append, Bool.and_eq_true] at h ⊢
      exact ⟨h.1, ih (s || p x) h.2⟩

/-- `precededBy` is closed under concatenation. -/
theorem precededBy_append {α : Type} (p q : α → Bool) (A B : List α)
    (hA : precededBy p q A = true) (hB : precededBy p q B = true) :
    precededBy p q (A ++ B) = true :=
  precededByGo_append p q B hB A false hA

/-- If no `p`-element occurs in `A` and no `q`-element occurs in `B`, then
no `q`-element of `A ++ B` follows a `p`-element. -/
theorem noAfterGo_of_no_q {α : Type} (p q : α → Bool) :
    ∀ (l : List α) (s : Bool), (∀ e ∈ l, q e = false) →
      noAfterGo p q s l = true := by
  intro l
  induction l with
  | nil => intro s _; rfl
  | cons x xs ih =>
      intro s h
      simp only [noAfterGo, Bool.and_eq_true]
      exact ⟨by simp [h x (by simp)],
        ih (s || p x) fun e he => h e (by simp [he])⟩

/-- Splitting form of `noAfter`: a prefix free of `p`-elements followed by a
suffix free of `q`-elements satisfies `noAfter`. -/
theorem noAfter_append_of {α : Type} (p q : α → Bool) (A B : List α)
    (hA : ∀ e ∈ A, p e = false) (hB : ∀ e ∈ B, q e = false) :
    noAfter p q (A ++ B) = true := by
  unfold noAfter
  induction A with
  | nil => simpa using noAfterGo_of_no_q p q B false hB
  | cons x xs ih =>
      simp only [noAfterGo, List.cons_append, Bool.and_eq_true]
      refine ⟨by simp, ?_⟩
      rw [show (false || p x) = false by simp [hA x (by simp)]]
      exact ih fun e he => hA e (by simp [he])

/-- Exceptions that escape the per-form loop (and hence the run) of
`process` (process.py lines 15-209). -/
inductive RunExc where
  | valueErrorSSN
  | notifyTypeError
deriving DecidableEq

/-- Events observable in the tracking store and towards the backends during
a run of `process`: stored-procedure status writes, the per-step backend
calls, and attempts to invoke the notification dispatcher. -/
inductive PEvent where
  | statusMark (form_id : String) (status : String)
  | contactCall (form_id : String)
  | searchFolderCall (form_id : String)
  | createFolderCall (form_id : String)
  | createCaseCall (form_id : String)
  | journalizeStep (form_id : String)
  | notifyAttempt (form_id : String)
deriving DecidableEq

/-- Backend behaviour for one form of the batch: the payload-extracted ssn
and the outcome of each pipeline step (the journalize_process.py step
functions); `.error` means the step raised, after writing its Failed status
mark through `handle_database_error` (journalize_process.py lines 68-84). -/
structure FormScenario where
  form_id : String
  ssn : Option String
  contactRes : Except Unit (String × String)
  searchRes : Except Unit (Option String)
  createFolderRes : Except Unit String
  createCaseRes : Except Unit (String × String × String)
  journalizeRes : Except Unit Unit

/-- Run-wide configuration: the webform id and metadata case type, and
whether the `notify_stakeholders` invocation returns to the caller.  In
this source every such invocation raises TypeError at the call boundary
(see `bindCall` and `notifyStakeholdersParams`); the flag keeps the model meaningful for a
corrected call as well. -/
structure RunCfg where
  webformId : String
  caseType : String
  notifyReturns : Bool

/-- Python `if not case_folder_id` (process.py line 122): None and the
empty string are falsy. -/
def folderFalsy : Option String → Bool
  | none => true
  | some s => s == ""

/-- The guard of process.py lines 46-52: the extracted ssn is None and the
webform id is outside the boundary-violation family. -/
def ssnGuardTrips (cfg : RunCfg) (s : FormScenario) : Bool :=
  s.ssn == none && !(rfgFamily.contains cfg.webformId)

/-- The escape value of a failure handler: with the source's 7-argument
notify call the TypeError escapes the `except` block (no `continue` is
reached); with a returning call the loop continues (`none`). -/
def notifyEscape (cfg : RunCfg) : Option RunExc :=
  if cfg.notifyReturns then none else some RunExc.notifyTypeError

/-- The case-creation and file-journalization stage of the per-form loop
(process.py lines 152-209), entered with the events `pre` already emitted:
`create_case` (on failure the step writes the Failed mark and the handler
at lines 171-175 calls the dispatcher and continues), then
`journalize_file` (handler at lines 193-204), then the Successful status
mark (lines 206-209). -/
def tailStage (cfg : RunCfg) (s : FormScenario) (pre : List PEvent) :
    List PEvent × Option RunExc :=
  match s.createCaseRes with
  | .error _ =>
      (pre ++ [.createCaseCall s.form_id, .statusMark s.form_id "Failed",
        .notifyAttempt s.form_id], notifyEscape cfg)
  | .ok _ =>
      match s.journalizeRes with
      | .error _ =>
          (pre ++ [.createCaseCall s.form_id, .journalizeStep s.form_id,
            .statusMark s.form_id "Failed", .notifyAttempt s.form_id],
           notifyEscape cfg)
      | .ok _ =>
          (pre ++ [.createCaseCall s.form_id, .journalizeStep s.form_id,
            .statusMark s.form_id "Successful"], none)

/-- One iteration of the per-form loop of `process` (process.py lines
26-209): the ssn guard (lines 46-52, Failed mark then an uncaught
ValueError), the InProgress mark (lines 60-63), then for citizen cases the
contact lookup (lines 65-90), folder search (lines 92-120) and conditional
folder creation (lines 122-150), then the tail stage.  Each caught step
failure emits the step's Failed mark and a dispatcher attempt and either
continues or escapes per `notifyEscape`. -/
def processForm (cfg : RunCfg) (s : FormScenario) :
    List PEvent × Option RunExc :=
  if ssnGuardTrips cfg s then
    ([.statusMark s.form_id "Failed"], some RunExc.valueErrorSSN)
  else
    let pre := [PEvent.statusMark s.form_id "InProgress"]
    if cfg.caseType = "BOR" then
      match s.contactRes with
      | .error _ =>
          (pre ++ [.contactCall s.form_id, .statusMark s.form_id "Failed",
            .notifyAttempt s.form_id], notifyEscape cfg)
      | .ok _ =>
          match s.searchRes with
          | .error _ =>
              (pre ++ [.contactCall s.form_id, .searchFolderCall s.form_id,
                .statusMark s.form_id "Failed", .notifyAttempt s.form_id],
               notifyEscape cfg)
          | .ok folderOpt =>
              if folderFalsy folderOpt then
                match s.createFolderRes with
                | .error _ =>
                    (pre ++ [.contactCall s.form_id,
                      .searchFolderCall s.form_id,
                      .createFolderCall s.form_id,
                      .statusMark s.form_id "Failed",
                      .notifyAttempt s.form_id], notifyEscape cfg)
                | .ok _ =>
                    tailStage cfg s (pre ++ [.contactCall s.form_id,
                      .searchFolderCall s.form_id,
                      .createFolderCall s.form_id])
              else
                tailStage cfg s (pre ++ [.contactCall s.form_id,
                  .searchFolderCall s.form_id])
    else tailStage cfg s pre

/-- The whole run: process the fetched batch in order; an exception ends
the run, leaving later forms unprocessed. -/
def processRun (cfg : RunCfg) : List FormScenario → List PEvent × Option RunExc
  | [] => ([], none)
  | s :: rest =>
      match processForm cfg s with
      | (t, some e) => (t, some e)
      | (t, none) =>
          match processRun cfg rest with
          | (t2, e2) => (t ++ t2, e2)

/-- Recogniser for a folder-search event of the given form. -/
def isSearchFor (f : String) : PEvent → Bool
  | .searchFolderCall g => g == f
  | _ => false

/-- Recogniser for a folder-create event of the given form. -/
def isCreateFolderFor (f : String) : PEvent → Bool
  | .createFolderCall g => g == f
  | _ => false

/-- Boolean negation-or tautology used when a search and a create event of
the same form meet the same recogniser. -/
theorem not_or_self_bool (b : Bool) : (!b || b) = true := by
  cases b <;> rfl

/-- In one form's trace, every folder-create call is strictly preceded by a
folder-search call for the same form. -/
theorem processForm_search_before_create (cfg : RunCfg) (s : FormScenario)
    (f : String) :
    precededBy (isSearchFor f) (isCreateFolderFor f)
      (processForm cfg s).1 = true := by
  unfold processForm
  by_cases hg : ssnGuardTrips cfg s = true
  · simp [hg, precededBy, precededByGo, isSearchFor, isCreateFolderFor]
  · rw [if_neg hg]
    by_cases hb : cfg.caseType = "BOR"
    · rw [if_pos hb]
      cases s.contactRes with
      | error e =>
          simp [precededBy, precededByGo, isSearchFor, isCreateFolderFor]
      | ok contact =>
          cases s.searchRes with
          | error e =>
              simp [precededBy, precededByGo, isSearchFor, isCreateFolderFor]
          | ok folderOpt =>
              dsimp only
              by_cases hf : folderFalsy folderOpt = true
              · rw [if_pos hf]
                cases s.createFolderRes with
                | error e =>
                    simp [precededBy, precededByGo, isSearchFor,
                      isCreateFolderFor, not_or_self_bool]
                | ok cf =>
                    unfold tailStage
                    cases s.createCaseRes with
                    | error e =>
                        simp [precededBy, precededByGo, isSearchFor,
                          isCreateFolderFor, not_or_self_bool]
                    | ok c =>
                        cases s.journalizeRes with
                        | error e =>
                            simp [precededBy, precededByGo, isSearchFor,
                              isCreateFolderFor, not_or_self_bool]
                        | ok u =>
                            simp [precededBy, precededByGo, isSearchFor,
                              isCreateFolderFor, not_or_self_bool]
              · rw [if_neg hf]
                unfold tailStage
                cases s.createCaseRes with
                | error e =>
                    simp [precededBy, precededByGo, isSearchFor,
                      isCreateFolderFor]
                | ok c =>
                    cases s.journalizeRes with
                    | error e =>
                        simp [precededBy, precededByGo, isSearchFor,
                          isCreateFolderFor]
                    | ok u =>
                        simp [precededBy, precededByGo, isSearchFor,
                          isCreateFolderFor]
    · rw [if_neg hb]
      unfold tailStage
      cases s.createCaseRes with
      | error e =>
          simp [precededBy, precededByGo, isSearchFor, isCreateFolderFor]
      | ok c =>
          cases s.journalizeRes with
          | error e =>
              simp [precededBy, precededByGo, isSearchFor, isCreateFolderFor]
          | ok u =>
              simp [precededBy, precededByGo, isSearchFor, isCreateFolderFor]

/-- When the search found a (truthy) existing folder id, that form's trace
contains no folder-create call. -/
theorem processForm_no_create_when_found (cfg : RunCfg) (s : FormScenario)
    (id : String) (hs : s.searchRes = .ok (some id)) (hid : id ≠ "") :
    PEvent.createFolderCall s.form_id ∉ (processForm cfg s).1 := by
  unfold processForm
  by_cases hg : ssnGuardTrips cfg s = true
  · simp [hg]
  · rw [if_neg hg]
    by_cases hb : cfg.caseType = "BOR"
    · rw [if_pos hb]
      cases hc : s.contactRes with
      | error e => simp
      | ok contact =>
          dsimp only
          rw [hs]
          dsimp only
          have hf : folderFalsy (some id) = false := by
            simp [folderFalsy, hid]
          rw [hf]
          simp only [Bool.false_eq_true, if_false]
          unfold tailStage
          cases s.createCaseRes with
          | error e => simp
          | ok c =>
              cases s.journalizeRes with
              | error e => simp
              | ok u => simp
    · rw [if_neg hb]
      unfold tailStage
      cases s.createCaseRes with
      | error e => simp
      | ok c =>
          cases s.journalizeRes with
          | error e => simp
          | ok u => simp

/-- C5: in every run, a folder-create call for a form is always strictly
preceded by a folder-search call for that form (first conjunct), and for a
form whose search returned an existing (truthy) folder id the create call
is never made at all, the found id being used instead (second conjunct). -/
theorem c5_search_before_create (cfg : RunCfg) (forms : List FormScenario) :
    (∀ f, precededBy (isSearchFor f) (isCreateFolderFor f)
      (processRun cfg forms).1 = true)
    ∧ (∀ s ∈ forms, ∀ id, s.searchRes = .ok (some id) → id ≠ "" →
      PEvent.createFolderCall s.form_id ∉ (processForm cfg s).1) := by
  constructor
  · intro f
    induction forms with
    | nil => rfl
    | cons s rest ih =>
        unfold processRun
        cases hp : processForm cfg s with
        | mk t e =>
            cases e with
            | some ex =>
                have := processForm_search_before_create cfg s f
                rw [hp] at this
                exact this
            | none =>
                cases hr : processRun cfg rest with
                | mk t2 e2 =>
                    have h1 := processForm_search_before_create cfg s f
                    rw [hp] at h1
                    rw [hr] at ih
                    exact precededBy_append _ _ t t2 h1 ih
  · intro s _ id hs hid
    exact processForm_no_create_when_found cfg s id hs hid

/-- Witness for C5: a run of one citizen form whose search finds folder
"CF1"; the trace orders search before create (vacuously, no create occurs)
and contains no create call. -/
theorem c5_search_before_create_witness :
    (precededBy (isSearchFor "f1") (isCreateFolderFor "f1")
      (processRun ⟨"tilmelding_til_modersmaalsunderv", "BOR", true⟩
        [⟨"f1", some "0101011234", .ok ("Jane Doe", "GO123"),
          .ok (some "CF1"), .ok "X", .ok ("C1", "T", "/u"), .ok ()⟩]).1 = true)
    ∧ PEvent.createFolderCall "f1" ∉
      (processForm ⟨"tilmelding_til_modersmaalsunderv", "BOR", true⟩
        ⟨"f1", some "0101011234", .ok ("Jane Doe", "GO123"),
          .ok (some "CF1"), .ok "X", .ok ("C1", "T", "/u"), .ok ()⟩).1 :=
  ⟨(c5_search_before_create ⟨"tilmelding_til_modersmaalsunderv", "BOR", true⟩
      [⟨"f1", some "0101011234", .ok ("Jane Doe", "GO123"),
        .ok (some "CF1"), .ok "X", .ok ("C1", "T", "/u"), .ok ()⟩]).1 "f1",
   (c5_search_before_create ⟨"tilmelding_til_modersmaalsunderv", "BOR", true⟩
      [⟨"f1", some "0101011234", .ok ("Jane Doe", "GO123"),
        .ok (some "CF1"), .ok "X", .ok ("C1", "T", "/u"), .ok ()⟩]).2
    ⟨"f1", some "0101011234", .ok ("Jane Doe", "GO123"),
      .ok (some "CF1"), .ok "X", .ok ("C1", "T", "/u"), .ok ()⟩
    (List.mem_singleton.mpr rfl) "CF1" rfl (by decide)⟩

/-- Whether the case-creation or file-journalization step of the form
raises (evaluated in control-flow order). -/
def caseOrJournalFails (s : FormScenario) : Bool :=
  match s.createCaseRes with
  | .error _ => true
  | .ok _ =>
      match s.journalizeRes with
      | .error _ => true
      | .ok _ => false

/-- Whether some step of the citizen ("BOR") branch of the per-form loop
raises, mirroring the control flow of `processForm`. -/
def borFails (s : FormScenario) : Bool :=
  match s.contactRes with
  | .error _ => true
  | .ok _ =>
      match s.searchRes with
      | .error _ => true
      | .ok folderOpt =>
          if folderFalsy folderOpt then
            match s.createFolderRes with
            | .error _ => true
            | .ok _ => caseOrJournalFails s
          else caseOrJournalFails s

/-- Whether the form's processing reaches one of the four `except` handlers
of process.py (a caught step failure). -/
def formHasCaughtFailure (cfg : RunCfg) (s : FormScenario) : Bool :=
  if ssnGuardTrips cfg s then false
  else if cfg.caseType = "BOR" then borFails s
  else caseOrJournalFails s

/-- C1 counterexample: a batch whose first form has extracted ssn None (for
webform id "tilmelding_til_modersmaalsunderv", outside the
boundary-violation family) is marked Failed and then `raise
ValueError("SSN is None")` (process.py line 52) escapes the run: the
notification dispatcher is never invoked for that form and the second form
of the batch is never processed — refuting "no exception escapes the run
... for every form in the fetched batch (including a form whose extracted
ssn is None)". -/
theorem c1_counterexample :
    (processRun ⟨"tilmelding_til_modersmaalsunderv", "BOR", false⟩
      [⟨"f1", none, .ok ("Jane Doe", "GO123"), .ok none, .ok "CF1",
        .ok ("C1", "T", "/u"), .ok ()⟩,
       ⟨"f2", some "0101011234", .ok ("John Doe", "GO124"), .ok none,
        .ok "CF2", .ok ("C2", "T2", "/u2"), .ok ()⟩]).2
      = some RunExc.valueErrorSSN
    ∧ PEvent.notifyAttempt "f1" ∉
      (processRun ⟨"tilmelding_til_modersmaalsunderv", "BOR", false⟩
        [⟨"f1", none, .ok ("Jane Doe", "GO123"), .ok none, .ok "CF1",
          .ok ("C1", "T", "/u"), .ok ()⟩,
         ⟨"f2", some "0101011234", .ok ("John Doe", "GO124"), .ok none,
          .ok "CF2", .ok ("C2", "T2", "/u2"), .ok ()⟩]).1
    ∧ PEvent.statusMark "f2" "InProgress" ∉
      (processRun ⟨"tilmelding_til_modersmaalsunderv", "BOR", false⟩
        [⟨"f1", none, .ok ("Jane Doe", "GO123"), .ok none, .ok "CF1",
          .ok ("C1", "T", "/u"), .ok ()⟩,
         ⟨"f2", some "0101011234", .ok ("John Doe", "GO124"), .ok none,
          .ok "CF2", .ok ("C2", "T2", "/u2"), .ok ()⟩]).1
    ∧ PEvent.statusMark "f1" "Failed" ∈
      (processRun ⟨"tilmelding_til_modersmaalsunderv", "BOR", false⟩
        [⟨"f1", none, .ok ("Jane Doe", "GO123"), .ok none, .ok "CF1",
          .ok ("C1", "T", "/u"), .ok ()⟩,
         ⟨"f2", some "0101011234", .ok ("John Doe", "GO124"), .ok none,
          .ok "CF2", .ok ("C2", "T2", "/u2"), .ok ()⟩]).1 := by
  refine ⟨rfl, ?_, ?_, ?_⟩ <;> decide

/-- C1 amended: on a caught step failure the step functions write the
Failed status mark and the orchestrator attempts the dispatcher call; the
loop continues to the next form exactly when that call returns (in this
source it raises TypeError, which escapes the run, see `bindCall`).
A form whose extracted ssn is None outside the boundary-violation family is
marked Failed and a ValueError escapes the run with no dispatcher attempt.
A form with no caught failure and an untripped guard completes and the loop
continues. -/
theorem c1_amended_failure_isolation (cfg : RunCfg) (s : FormScenario) :
    (formHasCaughtFailure cfg s = true →
      PEvent.statusMark s.form_id "Failed" ∈ (processForm cfg s).1
      ∧ PEvent.notifyAttempt s.form_id ∈ (processForm cfg s).1
      ∧ (processForm cfg s).2 = notifyEscape cfg)
    ∧ (ssnGuardTrips cfg s = true →
      processForm cfg s =
        ([.statusMark s.form_id "Failed"], some RunExc.valueErrorSSN))
    ∧ (formHasCaughtFailure cfg s = false → ssnGuardTrips cfg s = false →
      (processForm cfg s).2 = none) := by
  unfold processForm formHasCaughtFailure borFails caseOrJournalFails
  by_cases hg : ssnGuardTrips cfg s = true
  · simp [hg]
  · rw [if_neg hg, if_neg hg]
    by_cases hb : cfg.caseType = "BOR"
    · rw [if_pos hb, if_pos hb]
      cases s.contactRes with
      | error e => simp [hg]
      | ok contact =>
          cases s.searchRes with
          | error e => simp [hg]
          | ok folderOpt =>
              dsimp only
              by_cases hf : folderFalsy folderOpt = true
              · rw [if_pos hf, if_pos hf]
                cases s.createFolderRes with
                | error e => simp [hg]
                | ok cf =>
                    unfold tailStage
                    cases s.createCaseRes with
                    | error e => simp [hg]
                    | ok c =>
                        cases s.journalizeRes with
                        | error e => simp [hg]
                        | ok u => simp [hg]
              · rw [if_neg hf, if_neg hf]
                unfold tailStage
                cases s.createCaseRes with
                | error e => simp [hg]
                | ok c =>
                    cases s.journalizeRes with
                    | error e => simp [hg]
                    | ok u => simp [hg]
    · rw [if_neg hb, if_neg hb]
      unfold tailStage
      cases s.createCaseRes with
      | error e => simp [hg]
      | ok c =>
          cases s.journalizeRes with
          | error e => simp [hg]
          | ok u => simp [hg]

/-- Witness for C1 (amended) at two concrete forms: one failing at the
contact lookup under a returning dispatcher call (Failed mark, dispatcher
attempt, loop continues) and one tripping the ssn guard. -/
theorem c1_amended_failure_isolation_witness :
    (PEvent.statusMark "f1" "Failed" ∈
        (processForm ⟨"tilmelding_til_modersmaalsunderv", "BOR", true⟩
          ⟨"f1", some "0101011234", .error (), .ok none, .ok "CF1",
            .ok ("C1", "T", "/u"), .ok ()⟩).1
      ∧ PEvent.notifyAttempt "f1" ∈
        (processForm ⟨"tilmelding_til_modersmaalsunderv", "BOR", true⟩
          ⟨"f1", some "0101011234", .error (), .ok none, .ok "CF1",
            .ok ("C1", "T", "/u"), .ok ()⟩).1
      ∧ (processForm ⟨"tilmelding_til_modersmaalsunderv", "BOR", true⟩
          ⟨"f1", some "0101011234", .error (), .ok none, .ok "CF1",
            .ok ("C1", "T", "/u"), .ok ()⟩).2 =
          notifyEscape ⟨"tilmelding_til_modersmaalsunderv", "BOR", true⟩)
    ∧ processForm ⟨"tilmelding_til_modersmaalsunderv", "BOR", true⟩
        ⟨"f3", none, .ok ("Jane Doe", "GO123"), .ok none, .ok "CF1",
          .ok ("C1", "T", "/u"), .ok ()⟩ =
        ([.statusMark "f3" "Failed"], some RunExc.valueErrorSSN) :=
  ⟨(c1_amended_failure_isolation
      ⟨"tilmelding_til_modersmaalsunderv", "BOR", true⟩
      ⟨"f1", some "0101011234", .error (), .ok none, .ok "CF1",
        .ok ("C1", "T", "/u"), .ok ()⟩).1 (by decide),
   (c1_amended_failure_isolation
      ⟨"tilmelding_til_modersmaalsunderv", "BOR", true⟩
      ⟨"f3", none, .ok ("Jane Doe", "GO123"), .ok none, .ok "CF1",
        .ok ("C1", "T", "/u"), .ok ()⟩).2.1 (by decide)⟩

/-- Python `j.get(k)` on a parsed-JSON value: `None`-defaulted dict lookup,
an exception on a non-dict. -/
def pyGet (j : Json) (k : String) : Except PyErr (Option Json) :=
  match j with
  | .obj kvs => .ok (objLookup kvs k)
  | _ => .error .typeError

/-- `parsed_form_data['entity']['completed'][0]['value']`
(journalize_process.py line 536). -/
def completedDateLookup (formData : Json) : Except PyErr Json :=
  match pyIndexStr formData "entity" with
  | .error e => .error e
  | .ok e1 =>
      match pyIndexStr e1 "completed" with
      | .error e => .error e
      | .ok e2 =>
          match pyIndexZero e2 with
          | .error e => .error e
          | .ok e3 => pyIndexStr e3 "value"

/-- Truth of a metadata policy flag fetched with `.get`: present and equal
to the string "True". -/
def optIsTrue : Option Json → Bool
  | some v => Json.beq v (.str "True")
  | none => false

/-- A policy flag of the documentData metadata block, as consulted by
`handle_journalization` (line 552) and `handle_finalization` (line 574). -/
def docFlag (dd : Json) (key : String) : Bool :=
  match pyGet dd key with
  | .ok o => optIsTrue o
  | .error _ => false

/-- Failure of `journalize_file`: the DatabaseError/RequestError path or an
unexpected exception wrapped into RuntimeError (journalize_process.py lines
600-611); on both paths `handle_database_error` writes the Failed status
mark before re-raising. -/
inductive JFail where
  | known
  | wrapped (e : PyErr)
deriving DecidableEq

/-- Events of one `journalize_file` run: completed document uploads (with
the category chosen from the category map), the "Case Files" response-data
write, the journalize / notify / finalize calls, and the Failed status
mark. -/
inductive JEvent where
  | uploadCall (url : String) (category : String)
  | sqlWrite
  | journalizeCall
  | notifyCall
  | finalizeCall
  | failedMark
deriving DecidableEq

/-- Backend behaviour for one `journalize_file` run: per-url per-attempt
upload responses, the outcome of the response-data write, of the journalize
and finalize calls, whether the notify invocation returns (in this source
it raises TypeError, see `bindCall`), and the downloaded bytes per
url (abstracted to a number). -/
structure DocBackend where
  uploadResp : String → Nat → UploadResponse
  sqlOk : Bool
  journalizeOk : Bool
  finalizeOk : Bool
  notifyReturns : Bool
  fileBytes : String → Nat

/-- The category of a discovered attachment:
`document_category_json.get(name, 'Indgående')` (line 543); a non-string
name is never a key of the string-keyed category map, so it gets the
default. -/
def categoryFor (catMap : List (String × String)) (name : Json) : String :=
  match name with
  | .str ns => ((catMap.lookup ns).getD "Indgående")
  | _ => "Indgående"

/-- The upload loop of `process_documents` (journalize_process.py lines
541-547): upload each discovered pair in order through
`upload_single_document`, collecting document ids; a non-string url fails
the download call, and a final upload failure raises RequestError.  Returns
the emitted events and either the failure or the ids with the last
document's bytes (`None` when the loop body never ran). -/
def processDocsLoop (b : DocBackend) (catMap : List (String × String)) :
    List (Json × Json) → List JEvent × Except JFail (List Nat × Option Nat)
  | [] => ([], .ok ([], none))
  | (name, url) :: rest =>
      match url with
      | .str u =>
          match upload_single_document (b.uploadResp u) with
          | (_, .ok docId) =>
              match processDocsLoop b catMap rest with
              | (evs, .ok (ids, lastB)) =>
                  (.uploadCall u (categoryFor catMap name) :: evs,
                   .ok (docId :: ids, some (lastB.getD (b.fileBytes u))))
              | (evs, .error e) =>
                  (.uploadCall u (categoryFor catMap name) :: evs, .error e)
          | (_, .error _) =>
              ([.uploadCall u (categoryFor catMap name)], .error .known)
      | _ => ([], .error (.wrapped .typeError))

/-- The received-date computation of `process_documents`
(journalize_process.py lines 535-539): the completed date of the payload
when the `useCompletedDateFromFormAsDate` flag equals "True" (the flag
lookup uses raising indexing), the empty string otherwise. -/
def receivedDateCalc (formData documentData : Json) : Except PyErr Json :=
  match pyIndexStr documentData "useCompletedDateFromFormAsDate" with
  | .error e => Except.error e
  | .ok flag =>
      if Json.beq flag (.str "True") then completedDateLookup formData
      else .ok (.str "")

/-- `process_documents` (journalize_process.py lines 529-549): discover the
name-url pairs and the category map, compute the received date, run the
upload loop, and return the ids and `file_bytes`; when the loop body never
ran, the `return` statement references the unbound local `file_bytes`
(line 549). -/
def process_documents (b : DocBackend) (formData documentData : Json) :
    List JEvent × Except JFail (List Nat × Nat) :=
  let urls := find_name_url_pairs formData
  let catMap := extract_key_value_pairs_from_json documentData
    "documentCategory"
  match receivedDateCalc formData documentData with
  | .error e => ([], .error (.wrapped e))
  | .ok _receivedDate =>
      match processDocsLoop b catMap urls with
      | (evs, .error e) => (evs, .error e)
      | (evs, .ok (ids, some lastB)) => (evs, .ok (ids, lastB))
      | (evs, .ok (_, none)) =>
          (evs, .error (.wrapped (.unboundLocal "file_bytes")))

/-- `handle_journalization` (journalize_process.py lines 551-571): when the
journalize flag is set, call journalize-by-id (raising on a non-ok
response) and then the notification dispatcher, whose invocation raises
TypeError unless modelled as returning. -/
def journalizePhase (b : DocBackend) (documentData : Json) :
    List JEvent × Except JFail Unit :=
  match pyGet documentData "journalizeDocuments" with
  | .error e => ([], .error (.wrapped e))
  | .ok flag =>
      if optIsTrue flag then
        if b.journalizeOk then
          if b.notifyReturns then ([.journalizeCall, .notifyCall], .ok ())
          else ([.journalizeCall, .notifyCall],
            .error (.wrapped .typeError))
        else ([.journalizeCall], .error .known)
      else ([], .ok ())

/-- `handle_finalization` (journalize_process.py lines 573-584): when the
finalize flag is set, call finalize-by-id, raising on a non-ok response. -/
def finalizePhase (b : DocBackend) (documentData : Json) :
    List JEvent × Except JFail Unit :=
  match pyGet documentData "finalizeDocuments" with
  | .error e => ([], .error (.wrapped e))
  | .ok flag =>
      if optIsTrue flag then
        if b.finalizeOk then ([.finalizeCall], .ok ())
        else ([.finalizeCall], .error .known)
      else ([], .ok ())

/-- `journalize_file` (journalize_process.py lines 471-611): upload all
documents, write the "Case Files" response fragment, journalize, finalize;
any raise is handled by `handle_database_error`, which writes the Failed
status mark and re-raises. -/
def journalize_file (b : DocBackend) (formData documentData : Json) :
    List JEvent × Except JFail Unit :=
  match process_documents b formData documentData with
  | (evs, .error e) => (evs ++ [.failedMark], .error e)
  | (evs, .ok _) =>
      if b.sqlOk then
        match journalizePhase b documentData with
        | (evs2, .error e) =>
            (evs ++ [.sqlWrite] ++ evs2 ++ [.failedMark], .error e)
        | (evs2, .ok _) =>
            match finalizePhase b documentData with
            | (evs3, .error e) =>
                (evs ++ [.sqlWrite] ++ evs2 ++ evs3 ++ [.failedMark],
                 .error e)
            | (evs3, .ok _) =>
                (evs ++ [.sqlWrite] ++ evs2 ++ evs3, .ok ())
      else (evs ++ [.sqlWrite, .failedMark], .error .known)

/-- Recogniser for an upload event. -/
def isUploadEvent : JEvent → Bool
  | .uploadCall _ _ => true
  | _ => false

/-- Recogniser for the journalize call. -/
def isJournalizeEvent : JEvent → Bool
  | .journalizeCall => true
  | _ => false

/-- Recogniser for the finalize call. -/
def isFinalizeEvent : JEvent → Bool
  | .finalizeCall => true
  | _ => false

/-- Every event of the upload loop is an upload event. -/
theorem processDocsLoop_uploads (b : DocBackend)
    (m : List (String × String)) :
    ∀ (urls : List (Json × Json)) (e : JEvent),
      e ∈ (processDocsLoop b m urls).1 → isUploadEvent e = true := by
  intro urls
  induction urls with
  | nil => intro e he; simp [processDocsLoop] at he
  | cons p rest ih =>
      obtain ⟨name, url⟩ := p
      intro e he
      cases url with
      | str u =>
          simp only [processDocsLoop] at he
          cases hupd : upload_single_document (b.uploadResp u) with
          | mk att res =>
              rw [hupd] at he
              cases res with
              | ok docId =>
                  dsimp only at he
                  cases hrec : processDocsLoop b m rest with
                  | mk evs r2 =>
                      rw [hrec] at he
                      cases r2 with
                      | ok pr =>
                          obtain ⟨ids, lastB⟩ := pr
                          dsimp only at he
                          rcases List.mem_cons.mp he with h | h
                          · subst h; rfl
                          · exact ih e (by rw [hrec]; exact h)
                      | error err =>
                          dsimp only at he
                          rcases List.mem_cons.mp he with h | h
                          · subst h; rfl
                          · exact ih e (by rw [hrec]; exact h)
              | error err =>
                  dsimp only at he
                  rcases List.mem_cons.mp he with h | h
                  · subst h; rfl
                  · simp at h
      | null => simp [processDocsLoop] at he
      | bool v => simp [processDocsLoop] at he
      | num n => simp [processDocsLoop] at he
      | arr xs => simp [processDocsLoop] at he
      | obj kvs => simp [processDocsLoop] at he

/-- Every event of `process_documents` is an upload event. -/
theorem process_documents_uploads (b : DocBackend) (fd dd : Json)
    (e : JEvent) (he : e ∈ (process_documents b fd dd).1) :
    isUploadEvent e = true := by
  unfold process_documents at he
  cases hrd : receivedDateCalc fd dd with
  | error err => rw [hrd] at he; simp at he
  | ok rd =>
      rw [hrd] at he
      dsimp only at he
      cases hloop : processDocsLoop b
          (extract_key_value_pairs_from_json dd "documentCategory")
          (find_name_url_pairs fd) with
      | mk evs r =>
          rw [hloop] at he
          cases r with
          | error err =>
              dsimp only at he
              exact processDocsLoop_uploads b _ _ e (by rw [hloop]; exact he)
          | ok pr =>
              obtain ⟨ids, lastB⟩ := pr
              cases lastB with
              | some lb =>
                  dsimp only at he
                  exact processDocsLoop_uploads b _ _ e
                    (by rw [hloop]; exact he)
              | none =>
                  dsimp only at he
                  exact processDocsLoop_uploads b _ _ e
                    (by rw [hloop]; exact he)

/-- The journalize phase never emits an upload event. -/
theorem journalizePhase_not_upload (b : DocBackend) (dd : Json) :
    ∀ e ∈ (journalizePhase b dd).1, isUploadEvent e = false := by
  intro e he
  unfold journalizePhase at he
  split at he
  · simp at he
  · split at he
    · split at he
      · split at he
        · simp at he; rcases he with rfl | rfl <;> rfl
        · simp at he; rcases he with rfl | rfl <;> rfl
      · simp at he; subst he; rfl
    · simp at he

/-- The journalize phase never emits a finalize event. -/
theorem journalizePhase_not_finalize (b : DocBackend) (dd : Json) :
    ∀ e ∈ (journalizePhase b dd).1, isFinalizeEvent e = false := by
  intro e he
  unfold journalizePhase at he
  split at he
  · simp at he
  · split at he
    · split at he
      · split at he
        · simp at he; rcases he with rfl | rfl <;> rfl
        · simp at he; rcases he with rfl | rfl <;> rfl
      · simp at he; subst he; rfl
    · simp at he

/-- The finalize phase never emits an upload event. -/
theorem finalizePhase_not_upload (b : DocBackend) (dd : Json) :
    ∀ e ∈ (finalizePhase b dd).1, isUploadEvent e = false := by
  intro e he
  unfold finalizePhase at he
  split at he
  · simp at he
  · split at he
    · split at he
      · simp at he; subst he; rfl
      · simp at he; subst he; rfl
    · simp at he

/-- The finalize phase emits at most the finalize call. -/
theorem finalizePhase_shape (b : DocBackend) (dd : Json) :
    (finalizePhase b dd).1 = [] ∨
      (finalizePhase b dd).1 = [JEvent.finalizeCall] := by
  unfold finalizePhase
  split
  · exact Or.inl rfl
  · split
    · split
      · exact Or.inr rfl
      · exact Or.inr rfl
    · exact Or.inl rfl

/-- When the journalize flag is set and the journalize phase succeeded, its
trace is exactly the journalize call followed by the notify call. -/
theorem journalizePhase_ok_shape (b : DocBackend) (dd : Json)
    (hj : docFlag dd "journalizeDocuments" = true)
    (hok : (journalizePhase b dd).2 = .ok ()) :
    (journalizePhase b dd).1 = [JEvent.journalizeCall, JEvent.notifyCall] := by
  unfold docFlag at hj
  unfold journalizePhase at hok ⊢
  cases hpg : pyGet dd "journalizeDocuments" with
  | error err => rw [hpg] at hj; simp at hj
  | ok flag =>
      rw [hpg] at hj hok
      dsimp only at hj hok ⊢
      rw [if_pos hj] at hok ⊢
      by_cases hjo : b.journalizeOk = true
      · rw [if_pos hjo] at hok ⊢
        by_cases hnr : b.notifyReturns = true
        · rw [if_pos hnr]
        · rw [if_neg hnr] at hok
          simp at hok
      · rw [if_neg hjo] at hok
        simp at hok

/-- C4: in every execution of `journalize_file`, no document upload occurs
after the journalize-by-id call (all uploads in the batch complete first),
and when both policy flags are set every finalize-by-id call is strictly
preceded by the journalize-by-id call. -/
theorem c4_ordering (b : DocBackend) (fd dd : Json) :
    noAfter isJournalizeEvent isUploadEvent (journalize_file b fd dd).1 = true
    ∧ (docFlag dd "journalizeDocuments" = true →
      docFlag dd "finalizeDocuments" = true →
      precededBy isJournalizeEvent isFinalizeEvent
        (journalize_file b fd dd).1 = true) := by
  unfold journalize_file
  cases hpd : process_documents b fd dd with
  | mk evs r =>
      have hupU : ∀ e ∈ evs, isUploadEvent e = true := by
        intro e he
        exact process_documents_uploads b fd dd e (by rw [hpd]; exact he)
      have hupJ : ∀ e ∈ evs, isJournalizeEvent e = false := by
        intro e he
        have h := hupU e he
        cases e <;> simp_all [isUploadEvent, isJournalizeEvent]
      have hupF : ∀ e ∈ evs, isFinalizeEvent e = false := by
        intro e he
        have h := hupU e he
        cases e <;> simp_all [isUploadEvent, isFinalizeEvent]
      cases r with
      | error err =>
          dsimp only
          constructor
          · exact noAfter_append_of _ _ evs [JEvent.failedMark] hupJ
              (by intro e he; simp at he; subst he; rfl)
          · intro hj hf
            apply precededByGo_of_no_q
            intro e he
            rcases List.mem_append.mp he with h | h
            · exact hupF e h
            · simp at h; subst h; rfl
      | ok pr =>
          dsimp only
          by_cases hsql : b.sqlOk = true
          · rw [if_pos hsql]
            cases hjp : journalizePhase b dd with
            | mk evs2 r2 =>
                have hevs2U : ∀ e ∈ evs2, isUploadEvent e = false := by
                  intro e he
                  exact journalizePhase_not_upload b dd e
                    (by rw [hjp]; exact he)
                have hevs2F : ∀ e ∈ evs2, isFinalizeEvent e = false := by
                  intro e he
                  exact journalizePhase_not_finalize b dd e
                    (by rw [hjp]; exact he)
                cases r2 with
                | error e2 =>
                    dsimp only
                    constructor
                    · simp only [List.append_assoc]
                      apply noAfter_append_of _ _ evs _ hupJ
                      intro e he
                      rcases List.mem_append.mp he with h | h
                      · simp at h; subst h; rfl
                      · rcases List.mem_append.mp h with h2 | h2
                        · exact hevs2U e h2
                        · simp at h2; subst h2; rfl
                    · intro hj hf
                      apply precededByGo_of_no_q
                      intro e he
                      simp only [List.append_assoc] at he
                      rcases List.mem_append.mp he with h | h
                      · exact hupF e h
                      · rcases List.mem_append.mp h with h2 | h2
                        · simp at h2; subst h2; rfl
                        · rcases List.mem_append.mp h2 with h3 | h3
                          · exact hevs2F e h3
                          · simp at h3; subst h3; rfl
                | ok u2 =>
                    cases hfp : finalizePhase b dd with
                    | mk evs3 r3 =>
                        have hevs3U : ∀ e ∈ evs3, isUploadEvent e = false := by
                          intro e he
                          exact finalizePhase_not_upload b dd e
                            (by rw [hfp]; exact he)
                        have hevs3sh : evs3 = [] ∨
                            evs3 = [JEvent.finalizeCall] := by
                          have h := finalizePhase_shape b dd
                          rw [hfp] at h
                          exact h
                        have hok2 : (journalizePhase b dd).2 =
                            Except.ok () := by rw [hjp]
                        cases r3 with
                        | error e3 =>
                            dsimp only
                            constructor
                            · simp only [List.append_assoc]
                              apply noAfter_append_of _ _ evs _ hupJ
                              intro e he
                              rcases List.mem_append.mp he with h | h
                              · simp at h; subst h; rfl
                              · rcases List.mem_append.mp h with h2 | h2
                                · exact hevs2U e h2
                                · rcases List.mem_append.mp h2 with h3 | h3
                                  · exact hevs3U e h3
                                  · simp at h3; subst h3; rfl
                            · intro hj hf
                              have hevs2sh := journalizePhase_ok_shape b dd
                                hj hok2
                              rw [hjp] at hevs2sh
                              dsimp only at hevs2sh
                              subst hevs2sh
                              simp only [List.append_assoc]
                              apply precededByGo_append _ _ _ ?hB evs false
                              · apply precededByGo_of_no_q
                                intro e he
                                exact hupF e he
                              case hB =>
                                rcases hevs3sh with h3 | h3 <;> subst h3 <;>
                                  decide
                        | ok u3 =>
                            dsimp only
                            constructor
                            · simp only [List.append_assoc]
                              apply noAfter_append_of _ _ evs _ hupJ
                              intro e he
                              rcases List.mem_append.mp he with h | h
                              · simp at h; subst h; rfl
                              · rcases List.mem_append.mp h with h2 | h2
                                · exact hevs2U e h2
                                · exact hevs3U e h2
                            · intro hj hf
                              have hevs2sh := journalizePhase_ok_shape b dd
                                hj hok2
                              rw [hjp] at hevs2sh
                              dsimp only at hevs2sh
                              subst hevs2sh
                              simp only [List.append_assoc]
                              apply precededByGo_append _ _ _ ?hB2 evs false
                              · apply precededByGo_of_no_q
                                intro e he
                                exact hupF e he
                              case hB2 =>
                                rcases hevs3sh with h3 | h3 <;> subst h3 <;>
                                  decide
          · rw [if_neg hsql]
            constructor
            · exact noAfter_append_of _ _ evs
                [JEvent.sqlWrite, JEvent.failedMark] hupJ
                (by intro e he; simp at he
                    rcases he with rfl | rfl <;> rfl)
            · intro hj hf
              apply precededByGo_of_no_q
              intro e he
              rcases List.mem_append.mp he with h | h
              · exact hupF e h
              · simp at h; rcases h with rfl | rfl <;> rfl

/-- Witness for C4 at a concrete backend and payload: one attachment, both
policy flags set, all calls succeeding and the dispatcher returning. -/
theorem c4_ordering_witness :
    noAfter isJournalizeEvent isUploadEvent
      (journalize_file
        ⟨fun _ _ => ⟨true, 7⟩, true, true, true, true, fun _ => 1⟩
        (.obj [("attachments", .obj [("a1",
          .obj [("name", .str "Kvittering"),
                ("url", .str "https://x/y/kvittering.pdf")])])])
        (.obj [("useCompletedDateFromFormAsDate", .str "False"),
               ("journalizeDocuments", .str "True"),
               ("finalizeDocuments", .str "True")])).1 = true
    ∧ precededBy isJournalizeEvent isFinalizeEvent
      (journalize_file
        ⟨fun _ _ => ⟨true, 7⟩, true, true, true, true, fun _ => 1⟩
        (.obj [("attachments", .obj [("a1",
          .obj [("name", .str "Kvittering"),
                ("url", .str "https://x/y/kvittering.pdf")])])])
        (.obj [("useCompletedDateFromFormAsDate", .str "False"),
               ("journalizeDocuments", .str "True"),
               ("finalizeDocuments", .str "True")])).1 = true :=
  ⟨(c4_ordering ⟨fun _ _ => ⟨true, 7⟩, true, true, true, true, fun _ => 1⟩
      (.obj [("attachments", .obj [("a1",
        .obj [("name", .str "Kvittering"),
              ("url", .str "https://x/y/kvittering.pdf")])])])
      (.obj [("useCompletedDateFromFormAsDate", .str "False"),
             ("journalizeDocuments", .str "True"),
             ("finalizeDocuments", .str "True")])).1,
   (c4_ordering ⟨fun _ _ => ⟨true, 7⟩, true, true, true, true, fun _ => 1⟩
      (.obj [("attachments", .obj [("a1",
        .obj [("name", .str "Kvittering"),
              ("url", .str "https://x/y/kvittering.pdf")])])])
      (.obj [("useCompletedDateFromFormAsDate", .str "False"),
             ("journalizeDocuments", .str "True"),
             ("finalizeDocuments", .str "True")])).2 (by rfl) (by rfl)⟩

/-- C9: for every form whose payload yields no attachment descriptors, the
file-journalization step never succeeds: it fails and writes the Failed
status mark, and whenever the received-date computation returns, the error
is precisely the unbound local `file_bytes` at the `return` of
`process_documents`, wrapped into the generic runtime failure. -/
theorem c9_empty_attachments_failed (b : DocBackend) (fd dd : Json)
    (h : find_name_url_pairs fd = []) :
    (∃ e, (journalize_file b fd dd).2 = .error e)
    ∧ JEvent.failedMark ∈ (journalize_file b fd dd).1
    ∧ (∀ rd, receivedDateCalc fd dd = .ok rd →
      (journalize_file b fd dd).2 =
        .error (.wrapped (.unboundLocal "file_bytes"))) := by
  unfold journalize_file process_documents
  rw [h]
  cases hrd : receivedDateCalc fd dd with
  | error err =>
      dsimp only
      refine ⟨⟨.wrapped err, rfl⟩, by simp, ?_⟩
      intro rd hrd2
      cases hrd2
  | ok rd =>
      dsimp only [processDocsLoop]
      exact ⟨⟨.wrapped (.unboundLocal "file_bytes"), rfl⟩, by simp,
        fun rd2 _ => rfl⟩

/-- Witness for C9 at a payload with no attachments and metadata with the
received-date flag off. -/
theorem c9_empty_attachments_failed_witness :
    JEvent.failedMark ∈
      (journalize_file
        ⟨fun _ _ => ⟨true, 7⟩, true, true, true, true, fun _ => 1⟩
        (.obj [("data", .obj [("navn", .str "Jane")])])
        (.obj [("useCompletedDateFromFormAsDate", .str "False"),
               ("journalizeDocuments", .str "True")])).1
    ∧ (journalize_file
        ⟨fun _ _ => ⟨true, 7⟩, true, true, true, true, fun _ => 1⟩
        (.obj [("data", .obj [("navn", .str "Jane")])])
        (.obj [("useCompletedDateFromFormAsDate", .str "False"),
               ("journalizeDocuments", .str "True")])).2 =
      .error (.wrapped (.unboundLocal "file_bytes")) :=
  ⟨(c9_empty_attachments_failed
      ⟨fun _ _ => ⟨true, 7⟩, true, true, true, true, fun _ => 1⟩
      (.obj [("data", .obj [("navn", .str "Jane")])])
      (.obj [("useCompletedDateFromFormAsDate", .str "False"),
             ("journalizeDocuments", .str "True")]) rfl).2.1,
   (c9_empty_attachments_failed
      ⟨fun _ _ => ⟨true, 7⟩, true, true, true, true, fun _ => 1⟩
      (.obj [("data", .obj [("navn", .str "Jane")])])
      (.obj [("useCompletedDateFromFormAsDate", .str "False"),
             ("journalizeDocuments", .str "True")]) rfl).2.2
    (.str "") rfl⟩

end Journalisering
